import Mathlib

/-!
Verification of the multi-provider event orchestration layer of a scheduling
application: the booking coordinator `EventManager` (src/unnamed/part_002), the
calendar provider layer `src/lib/calendarClient.ts`, and the Zoom video adapter
(src/lib/integrations/Zoom/ZoomVideoApiAdapter.ts), shallowly embedded.

Modelling conventions:
- Promises are embedded as `Except String` (resolution / rejection) for paths
  whose rejection value is a string message, and as explicit outcome values for
  the availability path, whose rejection payloads differ.
- Network calls, the persistence layer and the external parser helpers are
  oracles supplied through an environment record `Env`: the embedding is exact
  on the orchestration logic and parametric in what the outside world answers.
- Side effects that the claims observe (provider adapter invocations, mail-send
  attempts) are recorded in an explicit trace (`List TraceItem`).  In-place
  mutations of the shared `CalendarEvent` object that no output of the
  functions under scrutiny can observe (the `additionInformation` and
  `videoCallData` aliasing between the coordinator and the mail layer) are
  threaded locally where they are visible in a returned value and otherwise
  not tracked.
- TypeScript `x: T | null | undefined` fields whose code distinguishes `null`
  from `undefined` (the persisted reference fields tested with `!== undefined`
  and coalesced with `??`) are embedded as `Option (Option T)`: `none` is
  `undefined` (field absent), `some none` is `null`, `some (some v)` a value.
  Fields where the code only ever tests truthiness collapse both to `none`.
-/

/-- JavaScript truthiness of a `boolean | null` value: only `true` is truthy. -/
def otruthy : Option Bool → Bool
  | some true => true
  | _ => false

/-- JavaScript truthiness of a `string | null` value: `null`/`undefined` and the
empty string are falsy. -/
def strTruthy : Option String → Bool
  | some s => s != ""
  | none => false

/-- Bool-valued infix (contiguous sublist) test on character lists. -/
def isInfixList (pat : List Char) : List Char → Bool
  | [] => List.isPrefixOf pat []
  | c :: rest => List.isPrefixOf pat (c :: rest) || isInfixList pat rest

/-- JavaScript `String.prototype.includes` (substring test). -/
def jsIncludes (s pat : String) : Bool :=
  isInfixList pat.data s.data

/-- Replace the first occurrence of `pat` in a character list by `repl`,
leaving the list unchanged when `pat` does not occur. -/
def replaceFirstList (pat repl : List Char) : List Char → List Char
  | [] => if List.isPrefixOf pat ([] : List Char) then repl else []
  | c :: rest =>
    if List.isPrefixOf pat (c :: rest) then repl ++ List.drop pat.length (c :: rest)
    else c :: replaceFirstList pat repl rest

/-- JavaScript `String.prototype.replace` with a plain-string pattern: it
replaces only the first occurrence. -/
def jsReplaceFirst (s pat repl : String) : String :=
  String.mk (replaceFirstList pat.data repl.data s.data)

/-- JavaScript `String.prototype.endsWith` (suffix test), computed on the
character lists. -/
def jsEndsWith (s pat : String) : Bool :=
  List.isSuffixOf pat.data s.data

/-- `x ?? ""` on a `string | null | undefined` value: both `undefined` and
`null` coalesce to the empty string. -/
def nullishCoalesceEmpty : Option (Option String) → String
  | some (some s) => s
  | _ => ""

/-- `Person` from src/lib/calendarClient.ts. -/
structure Person where
  name : String
  email : String
  timeZone : String
  deriving Repr, DecidableEq

/-- `EntryPoint` from src/lib/calendarClient.ts. -/
structure EntryPoint where
  entryPointType : Option String
  uri : Option String
  label : Option String
  pin : Option String
  accessCode : Option String
  meetingCode : Option String
  passcode : Option String
  password : Option String
  deriving Repr, DecidableEq

/-- `Schema$CreateConferenceRequest`: only the `requestId` field is ever
populated or read by this repository. -/
structure CreateConferenceRequest where
  requestId : String
  deriving Repr, DecidableEq

/-- `ConferenceData` from src/lib/calendarClient.ts. -/
structure ConferenceData where
  createRequest : CreateConferenceRequest
  deriving Repr, DecidableEq

/-- `AdditionInformation` from src/lib/calendarClient.ts. -/
structure AdditionInformation where
  conferenceData : Option ConferenceData
  entryPoints : Option (List EntryPoint)
  hangoutLink : Option String
  deriving Repr, DecidableEq

/-- Modelled from the spec: `VideoCallData` lives in `@lib/videoClient`, which
is not under src/.  The spec describes it as the normalized cross-provider
video meeting descriptor with fields type, id, password, url. -/
structure VideoCallData where
  type : String
  id : String
  password : String
  url : String
  deriving Repr, DecidableEq

/-- Team descriptor inside `CalendarEvent`. -/
structure TeamInfo where
  name : String
  members : List String
  deriving Repr, DecidableEq

/-- `CalendarEvent` from src/lib/calendarClient.ts.  The `language` handle (a
translation function in the source) is embedded as an opaque string handle:
no modelled code path ever applies it. -/
structure CalendarEvent where
  type : String
  title : String
  startTime : String
  endTime : String
  description : Option String
  team : Option TeamInfo
  location : Option String
  organizer : Person
  attendees : List Person
  conferenceData : Option ConferenceData
  language : String
  additionInformation : Option AdditionInformation
  uid : Option String
  videoCallData : Option VideoCallData
  deriving Repr, DecidableEq

/-- Prisma `Credential`: id and the provider-type tag.  The opaque `key` blob
is consumed only by the per-provider auth adapters, which are embedded
separately and take the parsed key record directly (mirroring the source's
`credential.key as ...` casts). -/
structure Credential where
  id : Int
  type : String
  deriving Repr, DecidableEq

/-- `Event` from src/unnamed/part_002: the TS intersection type
of `AdditionInformation`, the record with name, id and the optional
`disableConfirmationEmail`, and `ZoomEventResult | DailyEventResult`,
flattened to the fields the repository reads: `name` (daily uid), `id`
(zoom meeting id, a number), the confirmation-mail opt-out, and the
addition-information fields copied into mail metadata. -/
structure Event where
  name : String
  id : Int
  disableConfirmationEmail : Option Bool
  hangoutLink : Option String
  conferenceData : Option ConferenceData
  entryPoints : Option (List EntryPoint)
  deriving Repr, DecidableEq

/-- `EventResult` from src/unnamed/part_002. -/
structure EventResult where
  type : String
  success : Bool
  uid : String
  createdEvent : Option Event
  updatedEvent : Option Event
  originalEvent : CalendarEvent
  videoCallData : Option VideoCallData
  deriving Repr, DecidableEq

/-- `PartialReference` from src/unnamed/part_002.  The three meeting fields are
`string | null | undefined` in TS and the code distinguishes `null` from
`undefined` (`!== undefined` tests, `??` coalescing), hence `Option (Option String)`. -/
structure PartialReference where
  id : Option Int
  type : String
  uid : String
  meetingId : Option (Option String)
  meetingPassword : Option (Option String)
  meetingUrl : Option (Option String)
  deriving Repr, DecidableEq

/-- `PartialBooking` from src/unnamed/part_002. -/
structure PartialBooking where
  id : Int
  references : List PartialReference
  deriving Repr, DecidableEq

/-- `CreateUpdateResult` from src/unnamed/part_002. -/
structure CreateUpdateResult where
  results : List EventResult
  referencesToCreate : List PartialReference
  deriving Repr, DecidableEq

/-- Observable side effects of one orchestration run: provider adapter
invocations and mail-send attempts.  (A mail-send attempt is recorded whether
or not the send succeeds: both the organizer and attendee mail sends swallow
their own errors.) -/
inductive TraceItem where
  | calCreate (credentialId : Int)
  | calUpdate (credentialId : Int) (uid : String)
  | videoCreate (credentialId : Int)
  | videoUpdate (credentialId : Int)
  | organizerMail (variant : String)
  | attendeeMail (variant : String)
  deriving Repr, DecidableEq

/-- Environment of oracles: the outside world as seen by the orchestration
layer.  `calendarCreate`/`calendarUpdate` are the provider adapter network
calls of `calendarClient.ts`; `createMeeting`/`updateMeeting` stand for
`@lib/videoClient` (not under src/, modelled from the spec as the video
provider dispatch returning an `EventResult`); `getUid`/`asRichEventPlain`
stand for `CalEventParser` (not under src/); `uuidv5` is the deterministic
uuid-v5 digest of the `uuid` library; `findBooking` is the Prisma
booking-by-uid read.

The adapter `updateEvent` methods return `Promise<any>` and their RESOLVED
value can itself be falsy: the Office365 adapter resolves
`handleErrorsRaw` = `response.text()`, which is the falsy empty string for an
ok response with an empty body, and the Google adapter resolves
`event?.data`, which can be `undefined`.  `calendarUpdate` therefore resolves
an `Option Event`: `none` embeds a falsy resolved value, `some` a truthy one
(`createEvent` resolutions are truthy for every adapter under src/: Google
rejects unless `event?.data` is present and Office365 resolves a spread
object, so `calendarCreate` resolves a plain `Event`). -/
structure Env where
  uuidv5 : String → String
  getUid : CalendarEvent → String
  asRichEventPlain : CalendarEvent → CalendarEvent
  calendarCreate : Credential → CalendarEvent → Except String Event
  calendarUpdate : Credential → String → CalendarEvent → Except String (Option Event)
  createMeeting : Credential → CalendarEvent → Except String EventResult
  updateMeeting : Credential → CalendarEvent → Option String → Except String EventResult
  findBooking : String → Option PartialBooking

namespace CalendarClient

/-- `createEvent` from src/lib/calendarClient.ts (lines 619-681): build the
parser uid, send the rich event to the single adapter for `credential`, record
a failed `EventResult` when the adapter call rejects (the `.catch` sets
`success = false` and yields `undefined`), otherwise copy the created event's
addition-information onto the event, send the organizer mail unless `noMail`
is truthy, and return a successful result carrying `createdEvent`. -/
def createEvent (env : Env) (credential : Credential) (calEvent : CalendarEvent)
    (noMail : Option Bool) : EventResult × List TraceItem :=
  let uid : String := env.getUid calEvent
  let richEvent : CalendarEvent := env.asRichEventPlain calEvent
  match env.calendarCreate credential richEvent with
  | .error _ =>
    ({ type := credential.type, success := false, uid := uid, createdEvent := none,
       updatedEvent := none, originalEvent := calEvent, videoCallData := none },
     [TraceItem.calCreate credential.id])
  | .ok creationResult =>
    let metadata : AdditionInformation :=
      { hangoutLink := creationResult.hangoutLink,
        conferenceData := creationResult.conferenceData,
        entryPoints := creationResult.entryPoints }
    let calEventWithMeta : CalendarEvent :=
      { calEvent with additionInformation := some metadata }
    let mailTrace : List TraceItem :=
      if otruthy noMail then [] else [TraceItem.organizerMail "new"]
    ({ type := credential.type, success := true, uid := uid,
       createdEvent := some creationResult, updatedEvent := none,
       originalEvent := calEventWithMeta, videoCallData := none },
     TraceItem.calCreate credential.id :: mailTrace)

/-- `updateEvent` from src/lib/calendarClient.ts (lines 683-731): when
`bookingRefUid` is not truthy (absent or empty) the adapter is not invoked
and `updatedResult` is `null`; when present, a rejected adapter call sets
`success = false` via the `.catch` and yields `undefined`.  The source then
guards with `if (!updatedResult)` — a truthiness test on the adapter's
RESOLVED value as well: a falsy resolution (`.ok none`, e.g. Office365's
empty `response.text()`) takes the same early return with `success` still
`true` and neither event populated, before the mail block.  Only a truthy
resolution yields a result carrying `updatedEvent`, plus the organizer
reschedule mail unless `noMail` is truthy. -/
def updateEvent (env : Env) (credential : Credential) (calEvent : CalendarEvent)
    (noMail : Option Bool) (bookingRefUid : Option String) : EventResult × List TraceItem :=
  let uid : String := env.getUid calEvent
  let richEvent : CalendarEvent := env.asRichEventPlain calEvent
  match bookingRefUid with
  | none =>
    ({ type := credential.type, success := true, uid := uid, createdEvent := none,
       updatedEvent := none, originalEvent := calEvent, videoCallData := none }, [])
  | some refUid =>
    if refUid = "" then
      ({ type := credential.type, success := true, uid := uid, createdEvent := none,
         updatedEvent := none, originalEvent := calEvent, videoCallData := none }, [])
    else
      match env.calendarUpdate credential refUid richEvent with
      | .error _ =>
        ({ type := credential.type, success := false, uid := uid, createdEvent := none,
           updatedEvent := none, originalEvent := calEvent, videoCallData := none },
         [TraceItem.calUpdate credential.id refUid])
      | .ok none =>
        ({ type := credential.type, success := true, uid := uid, createdEvent := none,
           updatedEvent := none, originalEvent := calEvent, videoCallData := none },
         [TraceItem.calUpdate credential.id refUid])
      | .ok (some updatedResult) =>
        let mailTrace : List TraceItem :=
          if otruthy noMail then [] else [TraceItem.organizerMail "reschedule"]
        ({ type := credential.type, success := true, uid := uid, createdEvent := none,
           updatedEvent := some updatedResult, originalEvent := calEvent,
           videoCallData := none },
         TraceItem.calUpdate credential.id refUid :: mailTrace)

end CalendarClient

/-- Modelled from the spec: the `LocationType` enum of `@lib/location` is not
under src/.  The spec fixes the reserved sentinels as `integrations:<name>`
for the three recognized integrations, and the concrete strings are
corroborated inside src/ by the literal "integrations:google:meet" in
src/lib/calendarClient.ts and the literals "integrations:zoom" /
"integrations:daily" in `EventManager.isDedicatedIntegration`. -/
def LocationType.GoogleMeet : String := "integrations:google:meet"

/-- Modelled from the spec: see `LocationType.GoogleMeet`. -/
def LocationType.Zoom : String := "integrations:zoom"

/-- Modelled from the spec: see `LocationType.GoogleMeet`. -/
def LocationType.Daily : String := "integrations:daily"

/-- Modelled from the spec: `FAKE_DAILY_CREDENTIAL` is exported by the Daily
video adapter, which is not under src/; it is a synthetic credential of type
"daily_video" pushed onto the video credential list when the Daily integration
is configured through the environment. -/
def FAKE_DAILY_CREDENTIAL : Credential := { id := 0, type := "daily_video" }

/-- The two credential lists held by an `EventManager` instance. -/
structure EventManager where
  calendarCredentials : List Credential
  videoCredentials : List Credential
  deriving Repr, DecidableEq

namespace EventManager

/-- The `EventManager` constructor (src/unnamed/part_002, lines 63-72):
split the credentials by type suffix and, when the Daily integration is
configured (`process.env.DAILY_API_KEY`, the `hasDailyIntegration` flag
here), push the fake Daily credential onto the video list. -/
def init (hasDailyIntegration : Bool) (credentials : List Credential) : EventManager :=
  { calendarCredentials := credentials.filter (fun cred => jsEndsWith cred.type "_calendar"),
    videoCredentials :=
      credentials.filter (fun cred => jsEndsWith cred.type "_video")
        ++ (if hasDailyIntegration then [FAKE_DAILY_CREDENTIAL] else []) }

/-- `EventManager.isDedicatedIntegration` (src/unnamed/part_002, lines 322-326). -/
def isDedicatedIntegration (location : String) : Bool :=
  location == "integrations:zoom" || location == "integrations:daily"

/-- The guard both call sites wrap around the predicate:
`evt.location ? EventManager.isDedicatedIntegration(evt.location) : null`.
A missing or empty (falsy) location yields `null`. -/
def locationDedicated : Option String → Option Bool
  | some l => if l == "" then none else some (isDedicatedIntegration l)
  | none => none

/-- `EventManager.getLocationRequestFromIntegration` (src/unnamed/part_002,
lines 335-356), with the deterministic `uuidv5(location, uuidv5.URL)` digest
supplied as the function `u`.  The source receives `{ location }`; the
embedding takes the string directly. -/
def getLocationRequestFromIntegration (u : String → String) (location : String) :
    Option (ConferenceData × String) :=
  if location == LocationType.GoogleMeet || location == LocationType.Zoom
      || location == LocationType.Daily then
    some ({ createRequest := { requestId := u location } }, location)
  else
    none

/-- `EventManager.processLocation` (src/unnamed/part_002, lines 365-378):
when the location contains "integration", deep-merge the conference-request
object into the event (`lodash.merge` overwrites `conferenceData` and
`location`); otherwise, and when the helper yields `null`, the event passes
through unchanged. -/
def processLocation (u : String → String) (event : CalendarEvent) : CalendarEvent :=
  match event.location with
  | some loc =>
    if jsIncludes loc "integration" then
      match getLocationRequestFromIntegration u loc with
      | some req => { event with conferenceData := some req.fst, location := some req.snd }
      | none => event
    else event
  | none => event

/-- `EventManager.createAllCalendarEvents` (src/unnamed/part_002, lines
216-225): dispatch only the first calendar credential; no calendar credential
yields the empty result list. -/
def createAllCalendarEvents (env : Env) (mgr : EventManager) (event : CalendarEvent)
    (noMail : Option Bool) : List EventResult × List TraceItem :=
  match mgr.calendarCredentials with
  | [] => ([], [])
  | firstCalendar :: _ =>
    let pair := CalendarClient.createEvent env firstCalendar event noMail
    ([pair.fst], pair.snd)

/-- `EventManager.getVideoCredential` (src/unnamed/part_002, lines 234-242):
strip the first "integrations:" from the location and find the first video
credential whose type contains the remaining integration name. -/
def getVideoCredential (mgr : EventManager) (event : CalendarEvent) : Option Credential :=
  match event.location with
  | none => none
  | some loc =>
    if loc == "" then none
    else
      let integrationName := jsReplaceFirst loc "integrations:" ""
      mgr.videoCredentials.find? (fun credential => jsIncludes credential.type integrationName)

/-- `EventManager.createVideoEvent` (src/unnamed/part_002, lines 252-260). -/
def createVideoEvent (env : Env) (mgr : EventManager) (event : CalendarEvent) :
    Except String (EventResult × List TraceItem) :=
  match getVideoCredential mgr event with
  | some credential =>
    (env.createMeeting credential event).map (fun r => (r, [TraceItem.videoCreate credential.id]))
  | none => .error "No suitable credentials given for the requested integration name."

/-- `EventManager.updateAllCalendarEvents` (src/unnamed/part_002, lines
273-284): one `updateEvent` call per calendar credential (the source uses
`async.mapLimit(-, 5, -)`, which preserves order; the concurrency bound does
not affect the collected results), each looking up its prior reference uid by
credential type. -/
def updateAllCalendarEvents (env : Env) (mgr : EventManager) (event : CalendarEvent)
    (booking : PartialBooking) (noMail : Option Bool) : List EventResult × List TraceItem :=
  let pairs := mgr.calendarCredentials.map (fun credential =>
    let bookingRefUid : Option String :=
      ((booking.references.filter (fun ref => ref.type == credential.type)).head?).map
        (fun r => r.uid)
    CalendarClient.updateEvent env credential event noMail bookingRefUid)
  (pairs.map (fun p => p.fst), (pairs.map (fun p => p.snd)).flatten)

/-- `EventManager.bookingReferenceToVideoCallData` (src/unnamed/part_002,
lines 387-421): a missing reference throws; a "zoom_video" reference counts as
complete when all three meeting fields are `!== undefined` (a present-but-null
field passes this test); a complete reference is coalesced field-by-field with
`?? ""`, an incomplete one yields `undefined`. -/
def bookingReferenceToVideoCallData (reference : Option PartialReference) :
    Except String (Option VideoCallData) :=
  match reference with
  | none => .error "missing reference"
  | some r =>
    let isComplete : Bool :=
      if r.type == "zoom_video" then
        r.meetingId.isSome && r.meetingPassword.isSome && r.meetingUrl.isSome
      else true
    if isComplete then
      .ok (some { type := r.type,
                  id := nullishCoalesceEmpty r.meetingId,
                  password := nullishCoalesceEmpty r.meetingPassword,
                  url := nullishCoalesceEmpty r.meetingUrl })
    else
      .ok none

/-- `EventManager.updateVideoEvent` (src/unnamed/part_002, lines 293-309):
resolve the video credential, look up the prior reference of the credential's
type, call the provider's `updateMeeting`, and when the provider echoes no
video-call data reconstruct it from the prior reference (a missing reference
makes that reconstruction throw, rejecting the promise). -/
def updateVideoEvent (env : Env) (mgr : EventManager) (event : CalendarEvent)
    (booking : PartialBooking) : Except String (EventResult × List TraceItem) :=
  match getVideoCredential mgr event with
  | none => .error "No suitable credentials given for the requested integration name."
  | some credential =>
    let bookingRef : Option PartialReference :=
      (booking.references.filter (fun ref => ref.type == credential.type)).head?
    let bookingRefUid : Option String := bookingRef.map (fun r => r.uid)
    match env.updateMeeting credential event bookingRefUid with
    | .error e => .error e
    | .ok returnVal =>
      if returnVal.videoCallData = none then
        match bookingReferenceToVideoCallData bookingRef with
        | .error e => .error e
        | .ok v => .ok ({ returnVal with videoCallData := v },
                        [TraceItem.videoUpdate credential.id])
      else
        .ok (returnVal, [TraceItem.videoUpdate credential.id])

/-- JavaScript `a || b` on two optional events. -/
def jsOrEvent (a b : Option Event) : Option Event :=
  if a.isSome then a else b

/-- `EventManager.sendAttendeeMail` (src/unnamed/part_002, lines 431-465):
the mail is attempted when the result list is empty or when no result's
created/updated event has a truthy `disableConfirmationEmail`; the send's own
failure is caught and swallowed, so an attempt is recorded unconditionally in
that branch.  (The metadata attached to the event feeds only the mail body,
which no claim observes.) -/
def sendAttendeeMail (variant : String) (results : List EventResult)
    (event : CalendarEvent) : List TraceItem :=
  if results.length == 0
      || !(results.any (fun eRes =>
            otruthy ((jsOrEvent eRes.createdEvent eRes.updatedEvent).bind
              (fun e => e.disableConfirmationEmail)))) then
    [TraceItem.attendeeMail variant]
  else
    []

/-- The body of `results.map` in `EventManager.create` (src/unnamed/part_002,
lines 98-115): one `PartialReference` per `EventResult`, with the uid taken
from the created event (daily results use `name`, all others `id`) and the
empty string when no created event is present, and the meeting fields copied
from the result's optional video-call data. -/
def referenceOfResult (result : EventResult) : PartialReference :=
  let uid : String :=
    match result.createdEvent with
    | none => ""
    | some createdEvent =>
      if result.type == "daily_video" then createdEvent.name else toString createdEvent.id
  { id := none, type := result.type, uid := uid,
    meetingId := result.videoCallData.map (fun v => some v.id),
    meetingPassword := result.videoCallData.map (fun v => some v.password),
    meetingUrl := result.videoCallData.map (fun v => some v.url) }

/-- `EventManager.create` (src/unnamed/part_002, lines 81-121): enrich the
location, dispatch the calendar layer (mail suppressed for dedicated
bookings), then either dispatch the dedicated video provider (whose rejection
rejects the whole call) or attempt the attendee "new" mail, and map every
result (successful or not) to a reference to create. -/
def create (env : Env) (mgr : EventManager) (event : CalendarEvent) :
    Except String (CreateUpdateResult × List TraceItem) :=
  let evt := processLocation env.uuidv5 event
  let isDedicated := locationDedicated evt.location
  let calPair := createAllCalendarEvents env mgr evt isDedicated
  if otruthy isDedicated then
    match createVideoEvent env mgr evt with
    | .error e => .error e
    | .ok (result, videoTrace) =>
      let results := calPair.fst ++ [result]
      .ok ({ results := results, referencesToCreate := results.map referenceOfResult },
           calPair.snd ++ videoTrace)
  else
    .ok ({ results := calPair.fst,
           referencesToCreate := calPair.fst.map referenceOfResult },
         calPair.snd ++ sendAttendeeMail "new" calPair.fst evt)

/-- `EventManager.update` (src/unnamed/part_002, lines 129-201): reject a
falsy `rescheduleUid`, read the prior booking (absent booking rejects),
dispatch updates to every calendar credential, then either dispatch the
dedicated video update or attempt the attendee "reschedule" mail, delete the
old booking rows (pure persistence effects no claim observes), and return the
prior booking's references as `referencesToCreate`. -/
def update (env : Env) (mgr : EventManager) (event : CalendarEvent)
    (rescheduleUid : String) : Except String (CreateUpdateResult × List TraceItem) :=
  let evt := processLocation env.uuidv5 event
  if rescheduleUid = "" then
    .error "You called eventManager.update without an rescheduleUid. This should never happen."
  else
    match env.findBooking rescheduleUid with
    | none => .error "booking not found"
    | some booking =>
      let isDedicated := locationDedicated evt.location
      let calPair := updateAllCalendarEvents env mgr evt booking isDedicated
      if otruthy isDedicated then
        match updateVideoEvent env mgr evt booking with
        | .error e => .error e
        | .ok (result, videoTrace) =>
          .ok ({ results := calPair.fst ++ [result],
                 referencesToCreate := booking.references },
               calPair.snd ++ videoTrace)
      else
        .ok ({ results := calPair.fst, referencesToCreate := booking.references },
             calPair.snd ++ sendAttendeeMail "reschedule" calPair.fst evt)

end EventManager

namespace CalendarClient

/-- Parsed `credential.key` for Google (`Auth.Credentials` cast in
src/lib/calendarClient.ts): the fields the refresh path reads and writes. -/
structure GoogleCredentials where
  access_token : String
  expiry_date : Int
  refresh_token : String
  deriving Repr, DecidableEq

/-- `googleAuth(credential).getToken` from src/lib/calendarClient.ts (lines
21-60).  `isExpired` embeds the SDK predicate `myGoogleAuth.isTokenExpiring()`;
a refresh exchange answers `refreshOutcome` (the new token fields on success,
which are persisted and set on the client).  The refresh chain ends in
`.catch((err) => { console.error(...); return myGoogleAuth; })`: a refresh
failure is logged and the handle still carrying the stale credentials is
returned — `getToken` never rejects.  The auth handle is represented by the
credentials it carries. -/
def googleAuthGetToken (googleCredentials : GoogleCredentials) (isExpired : Bool)
    (refreshOutcome : Except String GoogleCredentials) :
    Except String GoogleCredentials :=
  if !isExpired then .ok googleCredentials
  else
    match refreshOutcome with
    | .ok token =>
      .ok { googleCredentials with access_token := token.access_token,
                                   expiry_date := token.expiry_date }
    | .error _ => .ok googleCredentials

/-- The Google adapter's `createEvent` entry (src/lib/calendarClient.ts,
lines 405-455) as seen from the auth layer:
`auth.getToken().then((myGoogleAuth) => calendar.events.insert(...))`, with
the insert outcome an oracle of the auth handle actually used. -/
def googleAdapterCreateEvent (googleCredentials : GoogleCredentials) (isExpired : Bool)
    (refreshOutcome : Except String GoogleCredentials)
    (insertOutcome : GoogleCredentials → Except String Event) : Except String Event := do
  let myGoogleAuth ← googleAuthGetToken googleCredentials isExpired refreshOutcome
  insertOutcome myGoogleAuth

/-- `O365AuthCredentials` from src/lib/calendarClient.ts. -/
structure O365AuthCredentials where
  expiry_date : Int
  access_token : String
  refresh_token : String
  deriving Repr, DecidableEq

/-- `o365Auth(credential).getToken` from src/lib/calendarClient.ts (lines
84-124): expiry is `expiryDate < Math.round(Date.now() / 1000)` (the rounded
seconds are `nowSeconds` here); a non-expired token resolves immediately; an
expired one triggers the refresh exchange, whose rejection has no handler on
this path and therefore propagates; a successful exchange persists and
returns the fresh access token. -/
def o365AuthGetToken (o365AuthCredentials : O365AuthCredentials) (nowSeconds : Int)
    (refreshOutcome : Except String String) : Except String String :=
  if !(decide (o365AuthCredentials.expiry_date < nowSeconds)) then
    .ok o365AuthCredentials.access_token
  else
    refreshOutcome

/-- A promise rejection payload on the availability path: the Office365
adapter rejects with a bare empty array, the Google adapter with the
underlying error value. -/
inductive AvailRejection where
  | message (s : String)
  | emptyBusyList
  deriving Repr, DecidableEq

/-- `BufferedBusyTime` from src/lib/calendarClient.ts. -/
structure BufferedBusyTime where
  start : String
  stop : String
  deriving Repr, DecidableEq

/-- `MicrosoftOffice365Calendar(credential).getAvailability`
(src/lib/calendarClient.ts, lines 247-313): the whole chain — token refresh,
selected-calendar filtering, batch fetch, response parsing (`getToken` then
`fetchBusyTimes` here) — is wrapped in
`.catch((err) => { console.log(err); return Promise.reject([]); })`: every
upstream failure, a token-refresh failure included, is re-raised as a
rejection carrying an empty array; it is not resolved to an empty busy
list. -/
def o365GetAvailability (getToken : Except String String)
    (fetchBusyTimes : String → Except String (List BufferedBusyTime)) :
    Except AvailRejection (List BufferedBusyTime) :=
  match (do
      let accessToken ← getToken
      fetchBusyTimes accessToken : Except String (List BufferedBusyTime)) with
  | .ok l => .ok l
  | .error _ => .error AvailRejection.emptyBusyList

/-- `GoogleCalendar(credential).getAvailability` (src/lib/calendarClient.ts,
lines 359-404): `getToken` never rejects (its refresh failure is swallowed);
every inner failure — calendar-list read, freebusy query — calls
`reject(err)`, so the promise propagates the raw error (`query` is the
outcome of that inner chain). -/
def googleGetAvailability (query : Except String (List BufferedBusyTime)) :
    Except AvailRejection (List BufferedBusyTime) :=
  match query with
  | .ok l => .ok l
  | .error e => .error (AvailRejection.message e)

/-- Per-provider availability oracles: the pre-catch token/query outcomes of
the two adapters embedded above.  The CalDav and Apple adapters are not under
src/ and are modelled from the spec as opaque availability outcomes. -/
structure AvailEnv where
  googleQuery : Credential → Except String (List BufferedBusyTime)
  o365Token : Credential → Except String String
  o365FetchBusyTimes : Credential → String → Except String (List BufferedBusyTime)
  caldavAvailability : Credential → Except AvailRejection (List BufferedBusyTime)
  appleAvailability : Credential → Except AvailRejection (List BufferedBusyTime)

/-- The `calendars` registry (src/lib/calendarClient.ts, lines 579-595)
restricted to the `getAvailability` capability: known credential types map to
their adapter's availability call, unknown (legacy) types contribute no
adapter and are silently skipped. -/
def calendarsGetAvailability (env : AvailEnv) (cred : Credential) :
    Option (Except AvailRejection (List BufferedBusyTime)) :=
  match cred.type with
  | "google_calendar" => some (googleGetAvailability (env.googleQuery cred))
  | "office365_calendar" =>
    some (o365GetAvailability (env.o365Token cred) (env.o365FetchBusyTimes cred))
  | "caldav_calendar" => some (env.caldavAvailability cred)
  | "apple_calendar" => some (env.appleAvailability cred)
  | _ => none

/-- `Promise.all`: resolves with the list of all values, rejects as soon as
any input rejects (modelled in list order). -/
def promiseAll {ε α : Type} : List (Except ε α) → Except ε (List α)
  | [] => .ok []
  | x :: xs => do
    let v ← x
    let vs ← promiseAll xs
    pure (v :: vs)

/-- `getBusyCalendarTimes` (src/lib/calendarClient.ts, lines 597-607):
`Promise.all` over every resolvable adapter's `getAvailability`, followed by
a flattening `reduce`. -/
def getBusyCalendarTimes (env : AvailEnv) (withCredentials : List Credential) :
    Except AvailRejection (List BufferedBusyTime) :=
  (promiseAll (withCredentials.filterMap (calendarsGetAvailability env))).map
    (fun results => results.foldl (fun acc availability => acc ++ availability) [])

end CalendarClient

/-- Trace predicate: is this item a calendar provider adapter invocation
(a `createEvent` or `updateEvent` network call)? -/
def isCalendarAdapterCall : TraceItem → Bool
  | TraceItem.calCreate _ => true
  | TraceItem.calUpdate _ _ => true
  | _ => false

/-- The calendar-adapter invocations of one `CalendarClient.updateEvent` call
as a function of the booking-reference uid it was handed: none for an absent
or empty uid, exactly one otherwise. -/
def calUpdateCallOf (credential : Credential) : Option String → List TraceItem
  | some u => if u = "" then [] else [TraceItem.calUpdate credential.id u]
  | none => []

/-- The calendar-adapter invocations `EventManager.updateAllCalendarEvents`
performs for one credential: governed by the first prior reference whose type
matches the credential's. -/
def expectedCalUpdateCalls (booking : PartialBooking) (credential : Credential) :
    List TraceItem :=
  calUpdateCallOf credential
    (((booking.references.filter (fun ref => ref.type == credential.type)).head?).map
      (fun r => r.uid))

/-- A sample organizer for concrete instantiations. -/
def sampleOrganizer : Person :=
  { name := "Org", email := "org@example.com", timeZone := "Etc/UTC" }

/-- A sample calendar event with no location. -/
def sampleEvent : CalendarEvent :=
  { type := "30min", title := "Sync", startTime := "2021-10-01T10:00:00Z",
    endTime := "2021-10-01T10:30:00Z", description := none, team := none,
    location := none, organizer := sampleOrganizer, attendees := [],
    conferenceData := none, language := "en", additionInformation := none,
    uid := none, videoCallData := none }

/-- A sample provider-created event payload. -/
def sampleCreatedEvent : Event :=
  { name := "created", id := 42, disableConfirmationEmail := none,
    hangoutLink := none, conferenceData := none, entryPoints := none }

/-- A sample environment where every provider call succeeds. -/
def sampleEnv : Env :=
  { uuidv5 := fun s => s,
    getUid := fun _ => "parser-uid",
    asRichEventPlain := fun e => e,
    calendarCreate := fun _ _ => .ok sampleCreatedEvent,
    calendarUpdate := fun _ _ _ => .ok (some sampleCreatedEvent),
    createMeeting := fun credential e => .ok
      { type := credential.type, success := true, uid := "parser-uid",
        createdEvent := some sampleCreatedEvent, updatedEvent := none,
        originalEvent := e,
        videoCallData := some
          { type := credential.type, id := "42", password := "pw",
            url := "https://example.com/join" } },
    updateMeeting := fun credential e _ => .ok
      { type := credential.type, success := true, uid := "parser-uid",
        createdEvent := none, updatedEvent := none, originalEvent := e,
        videoCallData := none },
    findBooking := fun _ => none }

/-- An environment whose calendar-create adapter call rejects. -/
def envFailCal : Env :=
  { sampleEnv with calendarCreate := fun _ _ => .error "network error" }

/-- An environment whose calendar-update adapter call resolves a FALSY value
(the Office365 adapter resolving an empty `response.text()`). -/
def envFalsyUpdate : Env :=
  { sampleEnv with calendarUpdate := fun _ _ _ => .ok none }

/-- Two calendar credentials, as configured for the dispatch-count scenarios. -/
def mgrTwoCals : EventManager :=
  EventManager.init false
    [{ id := 1, type := "google_calendar" }, { id := 2, type := "office365_calendar" }]

/-- A prior booking holding one reference per calendar provider type. -/
def bookingTwoRefs : PartialBooking :=
  { id := 11, references :=
      [ { id := some 1, type := "google_calendar", uid := "google-uid-1",
          meetingId := none, meetingPassword := none, meetingUrl := none },
        { id := some 2, type := "office365_calendar", uid := "o365-uid-1",
          meetingId := none, meetingPassword := none, meetingUrl := none } ] }

/-- `sampleEnv` with the prior booking readable under uid "resched-1". -/
def envTwoRefs : Env :=
  { sampleEnv with findBooking := fun u =>
      if u = "resched-1" then some bookingTwoRefs else none }

/-- A persisted zoom reference whose password column is `null` (the Prisma
representation of a missing value), all fields present. -/
def zoomRefNullPassword : PartialReference :=
  { id := some 12, type := "zoom_video", uid := "zoom-ref-uid",
    meetingId := some (some "9876"), meetingPassword := some none,
    meetingUrl := some (some "https://zoom.us/j/9876") }

/-- A zoom reference whose password field is absent (`undefined`). -/
def zoomRefUndefinedPassword : PartialReference :=
  { id := some 13, type := "zoom_video", uid := "zoom-ref-uid2",
    meetingId := some (some "9876"), meetingPassword := none,
    meetingUrl := some (some "https://zoom.us/j/9876") }

/-- A prior dedicated booking holding the null-password zoom reference. -/
def bookingZoomNullPassword : PartialBooking :=
  { id := 3, references := [zoomRefNullPassword] }

/-- An `updateMeeting` oracle that resolves without echoing video-call data
(the Zoom update path returns a bare text body). -/
def updateMeetingNoEcho (credential : Credential) (e : CalendarEvent)
    (u : Option String) : Except String EventResult :=
  .ok { type := credential.type, success := true, uid := "parser-uid",
        createdEvent := none, updatedEvent := none, originalEvent := e,
        videoCallData := none }

/-- An environment whose `updateMeeting` resolves without echoing video-call
data. -/
def envZoomNoEcho : Env :=
  { sampleEnv with updateMeeting := updateMeetingNoEcho }

/-- A manager holding a single zoom video credential. -/
def mgrZoom : EventManager :=
  EventManager.init false [{ id := 7, type := "zoom_video" }]

/-- The sample event relocated to the dedicated zoom integration. -/
def zoomEvent : CalendarEvent :=
  { sampleEvent with location := some "integrations:zoom" }

/-- A stale Google credential key. -/
def googleStaleKey : CalendarClient.GoogleCredentials :=
  { access_token := "stale-token", expiry_date := 0, refresh_token := "rt" }

/-- A calendar-create oracle that goes through the embedded Google auth layer
with an expired token, a failing refresh exchange, and a provider insert that
accepts whatever token it is given. -/
def googleRefreshFailureCreate (c : Credential) (e : CalendarEvent) :
    Except String Event :=
  CalendarClient.googleAdapterCreateEvent googleStaleKey true (.error "invalid_grant")
    (fun _ => .ok sampleCreatedEvent)

/-- An environment whose calendar-create call is `googleRefreshFailureCreate`. -/
def envGoogleRefreshFailure : Env :=
  { sampleEnv with calendarCreate := googleRefreshFailureCreate }

/-- An availability environment where every provider answers an empty busy
list. -/
def availEnvOk : CalendarClient.AvailEnv :=
  { googleQuery := fun _ => .ok [],
    o365Token := fun _ => .ok "token",
    o365FetchBusyTimes := fun _ _ => .ok [],
    caldavAvailability := fun _ => .ok [],
    appleAvailability := fun _ => .ok [] }

/-- An availability environment where the Office365 token refresh and the
Google freebusy query both fail. -/
def availEnvFailing : CalendarClient.AvailEnv :=
  { availEnvOk with
    o365Token := fun _ => .error "refresh exchange failed",
    googleQuery := fun _ => .error "freebusy query failed" }

/-- Empty addition-information metadata. -/
def emptyMetadata : AdditionInformation :=
  { conferenceData := none, entryPoints := none, hangoutLink := none }

/-- The sample event as mutated by a successful create: empty
addition-information metadata attached. -/
def sampleEventWithMeta : CalendarEvent :=
  { sampleEvent with additionInformation := some emptyMetadata }

/-- The successful Google calendar result of the sample create run. -/
def googleOkEventResult : EventResult :=
  { type := "google_calendar", success := true, uid := "parser-uid",
    createdEvent := some sampleCreatedEvent, updatedEvent := none,
    originalEvent := sampleEventWithMeta, videoCallData := none }

/-- The reference derived from `googleOkEventResult`. -/
def googleOkReference : PartialReference :=
  { id := none, type := "google_calendar", uid := "42",
    meetingId := none, meetingPassword := none, meetingUrl := none }

/-- What `EventManager.create sampleEnv mgrTwoCals sampleEvent` returns: one
successful Google calendar result and its derived reference. -/
def createOkResult : CreateUpdateResult :=
  { results := [googleOkEventResult], referencesToCreate := [googleOkReference] }

/-- The trace of that same create run. -/
def createOkTrace : List TraceItem :=
  [TraceItem.calCreate 1, TraceItem.organizerMail "new", TraceItem.attendeeMail "new"]

theorem otruthy_some (b : Bool) : otruthy (some b) = b := by
  cases b <;> rfl

/-- Claim C7 (confirmed): the dedicated-integration predicate returns true
exactly for the locations "integrations:zoom" and "integrations:daily" and
false for every other location string; lifted through the call-site guard,
an absent (`null`/`undefined`) location is never dedicated either. -/
theorem claim_C7_dedicated_predicate :
    (∀ location : String,
      EventManager.isDedicatedIntegration location = true ↔
        (location = "integrations:zoom" ∨ location = "integrations:daily"))
    ∧ ∀ location : Option String,
        otruthy (EventManager.locationDedicated location) = true ↔
          (location = some "integrations:zoom" ∨ location = some "integrations:daily") := by
  constructor
  · intro location
    simp [EventManager.isDedicatedIntegration]
  · intro location
    match location with
    | none => simp [EventManager.locationDedicated, otruthy]
    | some l =>
      by_cases h : l = ""
      · subst h
        simp [EventManager.locationDedicated, otruthy]
      · simp [EventManager.locationDedicated, h, otruthy_some,
          EventManager.isDedicatedIntegration]

/-- Claim C9 (confirmed): with zero calendar credentials in the credential
set, `createAllCalendarEvents` yields the empty result list (the embedding is
a total function, so no error is raised either). -/
theorem claim_C9_no_calendar_credentials (env : Env) (hasDaily : Bool)
    (credentials : List Credential) (event : CalendarEvent) (noMail : Option Bool)
    (h : credentials.filter (fun cred => jsEndsWith cred.type "_calendar") = []) :
    EventManager.createAllCalendarEvents env (EventManager.init hasDaily credentials)
        event noMail = ([], []) := by
  simp [EventManager.createAllCalendarEvents, EventManager.init, h]

/-- Witness for C9 at a concrete video-only credential set. -/
theorem claim_C9_witness :
    EventManager.createAllCalendarEvents sampleEnv
        (EventManager.init false [{ id := 9, type := "zoom_video" }]) sampleEvent none
      = ([], []) :=
  claim_C9_no_calendar_credentials sampleEnv false [{ id := 9, type := "zoom_video" }]
    sampleEvent none rfl

/-- Claim C10 (confirmed): a create whose location is not a dedicated
integration and whose credential set holds no calendar credential produces an
empty result list and still attempts the attendee "new" mail: the mail-skip
condition treats the empty result list as "send". -/
theorem claim_C10_attendee_mail_empty_results (env : Env) (hasDaily : Bool)
    (credentials : List Credential) (event : CalendarEvent)
    (hcal : credentials.filter (fun cred => jsEndsWith cred.type "_calendar") = [])
    (hloc : otruthy (EventManager.locationDedicated
        (EventManager.processLocation env.uuidv5 event).location) = false) :
    EventManager.create env (EventManager.init hasDaily credentials) event
      = .ok ({ results := [], referencesToCreate := [] },
             [TraceItem.attendeeMail "new"]) := by
  simp [EventManager.create, EventManager.createAllCalendarEvents, EventManager.init,
    hcal, hloc, EventManager.sendAttendeeMail]

/-- Witness for C10: one video-only credential, no location. -/
theorem claim_C10_witness :
    EventManager.create sampleEnv (EventManager.init false [{ id := 9, type := "zoom_video" }])
        sampleEvent
      = .ok ({ results := [], referencesToCreate := [] },
             [TraceItem.attendeeMail "new"]) :=
  claim_C10_attendee_mail_empty_results sampleEnv false [{ id := 9, type := "zoom_video" }]
    sampleEvent rfl rfl

/-- Claim C5 (corrected, amended form): a calendar `createEvent` result has
`createdEvent` populated and `updatedEvent` absent exactly when successful and
both absent on failure; a calendar `updateEvent` result has both absent on
failure, and a SUCCESSFUL update carries `updatedEvent` alone unless the
`if (!updatedResult)` early return fired — either because the update was
skipped for want of a truthy prior booking-reference uid, or because the
invoked adapter resolved a falsy value (Office365's empty `response.text()`,
Google's absent `event?.data`) — in which case it is a success with neither
event populated. -/
theorem claim_C5_amended (env : Env) (credential : Credential) (calEvent : CalendarEvent)
    (noMail : Option Bool) (bookingRefUid : Option String) :
    (((CalendarClient.createEvent env credential calEvent noMail).fst.success = true →
        (CalendarClient.createEvent env credential calEvent noMail).fst.createdEvent.isSome = true ∧
        (CalendarClient.createEvent env credential calEvent noMail).fst.updatedEvent = none) ∧
      ((CalendarClient.createEvent env credential calEvent noMail).fst.success = false →
        (CalendarClient.createEvent env credential calEvent noMail).fst.createdEvent = none ∧
        (CalendarClient.createEvent env credential calEvent noMail).fst.updatedEvent = none)) ∧
    (((CalendarClient.updateEvent env credential calEvent noMail bookingRefUid).fst.success = false →
        (CalendarClient.updateEvent env credential calEvent noMail bookingRefUid).fst.createdEvent = none ∧
        (CalendarClient.updateEvent env credential calEvent noMail bookingRefUid).fst.updatedEvent = none) ∧
      ((CalendarClient.updateEvent env credential calEvent noMail bookingRefUid).fst.success = true →
        (CalendarClient.updateEvent env credential calEvent noMail bookingRefUid).fst.createdEvent = none ∧
        ((CalendarClient.updateEvent env credential calEvent noMail bookingRefUid).fst.updatedEvent.isSome = true
          ∨ strTruthy bookingRefUid = false
          ∨ ∃ refUid, bookingRefUid = some refUid ∧
              env.calendarUpdate credential refUid (env.asRichEventPlain calEvent)
                = .ok none))) := by
  constructor
  · cases h : env.calendarCreate credential (env.asRichEventPlain calEvent) <;>
      simp [CalendarClient.createEvent, h]
  · match bookingRefUid with
    | none => simp [CalendarClient.updateEvent, strTruthy]
    | some refUid =>
      by_cases he : refUid = ""
      · subst he
        simp [CalendarClient.updateEvent, strTruthy]
      · cases h : env.calendarUpdate credential refUid (env.asRichEventPlain calEvent) with
        | error e =>
          simp [CalendarClient.updateEvent, h, he, strTruthy]
        | ok v =>
          cases v with
          | none =>
            refine ⟨fun hs => ?_, fun hs => ?_⟩
            · exact ⟨by simp [CalendarClient.updateEvent, h, he],
                     by simp [CalendarClient.updateEvent, h, he]⟩
            · exact ⟨by simp [CalendarClient.updateEvent, h, he],
                     Or.inr (Or.inr ⟨refUid, rfl, h⟩)⟩
          | some ev =>
            simp [CalendarClient.updateEvent, h, he, strTruthy]

/-- Counterexample for C5 as stated: an update skipped for want of a prior
booking-reference uid yields `success = true` with NEITHER `createdEvent` nor
`updatedEvent` populated — a successful result with zero populated events. -/
theorem claim_C5_counterexample :
    (CalendarClient.updateEvent sampleEnv { id := 1, type := "google_calendar" }
        sampleEvent none none).fst.success = true
    ∧ (CalendarClient.updateEvent sampleEnv { id := 1, type := "google_calendar" }
        sampleEvent none none).fst.createdEvent = none
    ∧ (CalendarClient.updateEvent sampleEnv { id := 1, type := "google_calendar" }
        sampleEvent none none).fst.updatedEvent = none :=
  ⟨rfl, rfl, rfl⟩

/-- Witness for C5 (amended) at a concrete successful create, and at a
concrete invoked-but-falsy-resolving update (the new early-return case). -/
theorem claim_C5_witness :
    ((CalendarClient.createEvent sampleEnv { id := 1, type := "google_calendar" }
        sampleEvent none).fst.createdEvent.isSome = true
      ∧ (CalendarClient.createEvent sampleEnv { id := 1, type := "google_calendar" }
        sampleEvent none).fst.updatedEvent = none)
    ∧ ((CalendarClient.updateEvent envFalsyUpdate { id := 1, type := "google_calendar" }
          sampleEvent none (some "booking-ref")).fst.createdEvent = none
       ∧ ((CalendarClient.updateEvent envFalsyUpdate { id := 1, type := "google_calendar" }
            sampleEvent none (some "booking-ref")).fst.updatedEvent.isSome = true
          ∨ strTruthy (some "booking-ref") = false
          ∨ ∃ refUid, (some "booking-ref" : Option String) = some refUid ∧
              envFalsyUpdate.calendarUpdate { id := 1, type := "google_calendar" } refUid
                  (envFalsyUpdate.asRichEventPlain sampleEvent)
                = .ok none)) :=
  ⟨(claim_C5_amended sampleEnv { id := 1, type := "google_calendar" } sampleEvent none none).1.1
      rfl,
   (claim_C5_amended envFalsyUpdate { id := 1, type := "google_calendar" } sampleEvent none
      (some "booking-ref")).2.2 rfl⟩

/-- Claim C2 (code bug): a persisted zoom reference whose password is `null`
(how the persistence layer represents a missing password — the Prisma read in
`EventManager.update` never yields `undefined` fields) passes the
"`!== undefined`" completeness check, so reconstruction yields a
partially-filled `VideoCallData` with an empty-string password, both directly
and through `updateVideoEvent` when the provider echoes no video-call data;
only a reference whose field is absent (`undefined`) yields no data, as the
claim demands for every incomplete reference. -/
theorem claim_C2_null_password_reconstruction :
    EventManager.bookingReferenceToVideoCallData (some zoomRefNullPassword)
        = .ok (some { type := "zoom_video", id := "9876", password := "",
                      url := "https://zoom.us/j/9876" })
    ∧ ((EventManager.updateVideoEvent envZoomNoEcho mgrZoom zoomEvent
          bookingZoomNullPassword).toOption.map (fun p => p.fst.videoCallData))
        = some (some { type := "zoom_video", id := "9876", password := "",
                       url := "https://zoom.us/j/9876" })
    ∧ EventManager.bookingReferenceToVideoCallData (some zoomRefUndefinedPassword)
        = .ok none :=
  ⟨rfl, rfl, rfl⟩

/-- Claim C3 (code bug): one failing provider rejects the whole aggregated
busy-time query.  The Office365 adapter's closing catch re-raises every
upstream failure (a token-refresh failure included) as `Promise.reject([])`
instead of resolving the empty busy list it constructs, and the Google
adapter rejects with the raw error, so `getBusyCalendarTimes`'s
`Promise.all` rejects; only when every provider resolves does the aggregate
resolve. -/
theorem claim_C3_single_failure_rejects_aggregate :
    CalendarClient.getBusyCalendarTimes availEnvFailing
        [{ id := 5, type := "office365_calendar" }]
      = .error CalendarClient.AvailRejection.emptyBusyList
    ∧ CalendarClient.getBusyCalendarTimes availEnvFailing
        [{ id := 6, type := "google_calendar" }]
      = .error (CalendarClient.AvailRejection.message "freebusy query failed")
    ∧ CalendarClient.getBusyCalendarTimes availEnvOk
        [{ id := 5, type := "office365_calendar" }, { id := 6, type := "google_calendar" }]
      = .ok [] :=
  ⟨rfl, rfl, rfl⟩

/-- Claim C6 (corrected, amended form): on the booking-mutation path an
expired Office365 token whose refresh exchange fails surfaces as a rejected
`getToken`, failing the operation; the Google auth layer instead catches the
refresh failure and returns the client still holding the stale credentials,
so the refresh failure itself never propagates there. -/
theorem claim_C6_amended :
    (∀ (k : CalendarClient.O365AuthCredentials) (nowSeconds : Int) (e : String),
        k.expiry_date < nowSeconds →
        CalendarClient.o365AuthGetToken k nowSeconds (.error e) = .error e)
    ∧ (∀ (k : CalendarClient.GoogleCredentials) (e : String),
        CalendarClient.googleAuthGetToken k true (.error e) = .ok k) := by
  constructor
  · intro k nowSeconds e h
    simp [CalendarClient.o365AuthGetToken, h]
  · intro k e
    simp [CalendarClient.googleAuthGetToken]

/-- Counterexample for C6 as stated: a Google create operation with an
expired token and a failing refresh exchange completes as a SUCCESSFUL
operation (the stale client is silently reused), so the refresh failure did
not propagate to the caller as a failed operation. -/
theorem claim_C6_counterexample :
    CalendarClient.googleAuthGetToken googleStaleKey true (.error "invalid_grant")
        = .ok googleStaleKey
    ∧ (CalendarClient.createEvent envGoogleRefreshFailure
        { id := 1, type := "google_calendar" } sampleEvent none).fst.success = true :=
  ⟨rfl, rfl⟩

/-- Witness for C6 (amended) at a concrete expired Office365 credential. -/
theorem claim_C6_witness :
    CalendarClient.o365AuthGetToken
        { expiry_date := 0, access_token := "at", refresh_token := "rt" } 1
        (.error "refresh failed")
      = .error "refresh failed" :=
  claim_C6_amended.1 { expiry_date := 0, access_token := "at", refresh_token := "rt" } 1
    "refresh failed" (by decide)

theorem processLocation_recognized (u : String → String) (event : CalendarEvent)
    (loc : String) (hloc : event.location = some loc)
    (hrec : loc = LocationType.GoogleMeet ∨ loc = LocationType.Zoom ∨ loc = LocationType.Daily) :
    EventManager.processLocation u event
      = { event with
            conferenceData := some { createRequest := { requestId := u loc } },
            location := some loc } := by
  have h1 : jsIncludes "integrations:google:meet" "integration" = true := rfl
  have h2 : jsIncludes "integrations:zoom" "integration" = true := rfl
  have h3 : jsIncludes "integrations:daily" "integration" = true := rfl
  rcases hrec with h | h | h <;> subst h <;>
    simp [EventManager.processLocation, hloc, h1, h2, h3,
      EventManager.getLocationRequestFromIntegration,
      LocationType.GoogleMeet, LocationType.Zoom, LocationType.Daily]

/-- Claim C8 (confirmed): for an event whose location is one of the three
recognized integration sentinels, location enrichment is idempotent —
applying `processLocation` twice equals applying it once — and the enriched
event carries the conference-request id derived deterministically from the
location string. -/
theorem claim_C8_processLocation_idempotent (u : String → String) (event : CalendarEvent)
    (loc : String) (hloc : event.location = some loc)
    (hrec : loc = LocationType.GoogleMeet ∨ loc = LocationType.Zoom ∨ loc = LocationType.Daily) :
    EventManager.processLocation u (EventManager.processLocation u event)
        = EventManager.processLocation u event
    ∧ (EventManager.processLocation u event).conferenceData
        = some { createRequest := { requestId := u loc } } := by
  have h1 := processLocation_recognized u event loc hloc hrec
  have h2 := processLocation_recognized u
    { event with conferenceData := some { createRequest := { requestId := u loc } },
                 location := some loc } loc rfl hrec
  constructor
  · rw [h1, h2]
  · rw [h1]

/-- Witness for C8 at the zoom sentinel location. -/
theorem claim_C8_witness :
    EventManager.processLocation sampleEnv.uuidv5
        (EventManager.processLocation sampleEnv.uuidv5 zoomEvent)
      = EventManager.processLocation sampleEnv.uuidv5 zoomEvent
    ∧ (EventManager.processLocation sampleEnv.uuidv5 zoomEvent).conferenceData
      = some { createRequest := { requestId := sampleEnv.uuidv5 "integrations:zoom" } } :=
  claim_C8_processLocation_idempotent sampleEnv.uuidv5 zoomEvent "integrations:zoom" rfl
    (Or.inr (Or.inl rfl))

/-- Claim C1 (corrected, amended form): `create` derives `referencesToCreate`
by mapping `referenceOfResult` over the WHOLE result list — one reference per
`EventResult`, successful or not, in order: each reference's type equals its
result's type, its uid is taken from the successful result's created event
(daily results by name, all others by id) and is the empty string when the
result carries no created event, and the meeting fields are copied from the
result's video-call data. -/
theorem claim_C1_amended (env : Env) (mgr : EventManager) (event : CalendarEvent)
    (res : CreateUpdateResult) (trace : List TraceItem)
    (h : EventManager.create env mgr event = .ok (res, trace)) :
    res.referencesToCreate = res.results.map EventManager.referenceOfResult
    ∧ res.referencesToCreate.length = res.results.length
    ∧ ∀ i : Nat, res.referencesToCreate[i]? =
        (res.results[i]?).map EventManager.referenceOfResult := by
  have hmap : res.referencesToCreate = res.results.map EventManager.referenceOfResult := by
    simp only [EventManager.create] at h
    split at h
    · split at h
      · exact absurd h (by simp)
      · simp only [Except.ok.injEq, Prod.mk.injEq] at h
        obtain ⟨h1, h2⟩ := h
        rw [← h1]
    · simp only [Except.ok.injEq, Prod.mk.injEq] at h
      obtain ⟨h1, h2⟩ := h
      rw [← h1]
  refine ⟨hmap, ?_, ?_⟩
  · rw [hmap, List.length_map]
  · intro i
    rw [hmap, List.getElem?_map]

/-- Counterexample for C1 as stated: a create whose single calendar result
FAILS still produces one reference for it (with an empty uid) — the claim
demands no reference for a failed result. -/
theorem claim_C1_counterexample :
    (EventManager.create envFailCal (EventManager.init false
        [{ id := 1, type := "google_calendar" }]) sampleEvent).toOption.map
      (fun p => (p.fst.results.map (fun r => r.success),
                 p.fst.referencesToCreate.map (fun r => r.uid)))
      = some ([false], [""]) := rfl

/-- Witness for C1 (amended) at a concrete successful create. -/
theorem claim_C1_witness :
    (EventManager.create sampleEnv mgrTwoCals sampleEvent = .ok (createOkResult, createOkTrace))
    ∧ createOkResult.referencesToCreate.length = createOkResult.results.length :=
  ⟨rfl, (claim_C1_amended sampleEnv mgrTwoCals sampleEvent createOkResult createOkTrace rfl).2.1⟩

theorem updateEvent_trace_filter (env : Env) (credential : Credential)
    (calEvent : CalendarEvent) (noMail : Option Bool) (bookingRefUid : Option String) :
    ((CalendarClient.updateEvent env credential calEvent noMail bookingRefUid).snd).filter
        isCalendarAdapterCall
      = calUpdateCallOf credential bookingRefUid := by
  match bookingRefUid with
  | none => simp [CalendarClient.updateEvent, calUpdateCallOf]
  | some refUid =>
    by_cases he : refUid = ""
    · subst he
      simp [CalendarClient.updateEvent, calUpdateCallOf]
    · cases h : env.calendarUpdate credential refUid (env.asRichEventPlain calEvent) with
      | error e =>
        simp [CalendarClient.updateEvent, h, he, calUpdateCallOf, isCalendarAdapterCall]
      | ok v =>
        cases v with
        | none =>
          simp [CalendarClient.updateEvent, h, he, calUpdateCallOf, isCalendarAdapterCall]
        | some ev =>
          cases hm : otruthy noMail <;>
            simp [CalendarClient.updateEvent, h, he, hm, calUpdateCallOf,
              isCalendarAdapterCall]

theorem createEvent_trace_filter (env : Env) (credential : Credential)
    (calEvent : CalendarEvent) (noMail : Option Bool) :
    ((CalendarClient.createEvent env credential calEvent noMail).snd).filter
        isCalendarAdapterCall
      = [TraceItem.calCreate credential.id] := by
  cases h : env.calendarCreate credential (env.asRichEventPlain calEvent) with
  | error e => simp [CalendarClient.createEvent, h, isCalendarAdapterCall]
  | ok ev =>
    cases hm : otruthy noMail <;>
      simp [CalendarClient.createEvent, h, hm, isCalendarAdapterCall]

theorem sendAttendeeMail_trace_filter (variant : String) (results : List EventResult)
    (event : CalendarEvent) :
    (EventManager.sendAttendeeMail variant results event).filter isCalendarAdapterCall
      = [] := by
  unfold EventManager.sendAttendeeMail
  split <;> simp [isCalendarAdapterCall]

theorem createVideoEvent_trace_filter (env : Env) (mgr : EventManager)
    (event : CalendarEvent) (r : EventResult) (t : List TraceItem)
    (h : EventManager.createVideoEvent env mgr event = .ok (r, t)) :
    t.filter isCalendarAdapterCall = [] := by
  unfold EventManager.createVideoEvent at h
  split at h
  · rename_i credential heq
    cases hm : env.createMeeting credential event with
    | error e => rw [hm] at h; simp [Except.map] at h
    | ok rv =>
      rw [hm] at h
      simp only [Except.map, Except.ok.injEq, Prod.mk.injEq] at h
      obtain ⟨h1, h2⟩ := h
      rw [← h2]
      simp [isCalendarAdapterCall]
  · simp at h

theorem updateVideoEvent_trace_filter (env : Env) (mgr : EventManager)
    (event : CalendarEvent) (booking : PartialBooking) (r : EventResult)
    (t : List TraceItem)
    (h : EventManager.updateVideoEvent env mgr event booking = .ok (r, t)) :
    t.filter isCalendarAdapterCall = [] := by
  unfold EventManager.updateVideoEvent at h
  split at h
  · simp at h
  · simp only [] at h
    split at h
    · simp at h
    · split at h
      · split at h
        · simp at h
        · simp only [Except.ok.injEq, Prod.mk.injEq] at h
          obtain ⟨h1, h2⟩ := h
          rw [← h2]
          simp [isCalendarAdapterCall]
      · simp only [Except.ok.injEq, Prod.mk.injEq] at h
        obtain ⟨h1, h2⟩ := h
        rw [← h2]
        simp [isCalendarAdapterCall]

theorem updateAll_trace_filter (env : Env) (mgr : EventManager) (event : CalendarEvent)
    (booking : PartialBooking) (noMail : Option Bool) :
    ((EventManager.updateAllCalendarEvents env mgr event booking noMail).snd).filter
        isCalendarAdapterCall
      = (mgr.calendarCredentials.map (expectedCalUpdateCalls booking)).flatten := by
  simp only [EventManager.updateAllCalendarEvents]
  generalize mgr.calendarCredentials = l
  induction l with
  | nil => simp
  | cons c cs ih =>
    simp only [List.map_cons, List.flatten_cons, List.filter_append, ih,
      updateEvent_trace_filter, expectedCalUpdateCalls]

theorem createAll_trace_filter (env : Env) (mgr : EventManager) (event : CalendarEvent)
    (noMail : Option Bool) :
    ((EventManager.createAllCalendarEvents env mgr event noMail).snd).filter
        isCalendarAdapterCall
      = ((mgr.calendarCredentials.head?).map (fun c => TraceItem.calCreate c.id)).toList := by
  unfold EventManager.createAllCalendarEvents
  split
  · rename_i heq
    simp [heq]
  · rename_i c cs heq
    simp [heq, createEvent_trace_filter]

theorem create_trace_filter (env : Env) (mgr : EventManager) (event : CalendarEvent)
    (res : CreateUpdateResult) (trace : List TraceItem)
    (h : EventManager.create env mgr event = .ok (res, trace)) :
    trace.filter isCalendarAdapterCall
      = ((mgr.calendarCredentials.head?).map (fun c => TraceItem.calCreate c.id)).toList := by
  simp only [EventManager.create] at h
  split at h
  · split at h
    · exact absurd h (by simp)
    · rename_i p r videoTrace heq
      simp only [Except.ok.injEq, Prod.mk.injEq] at h
      obtain ⟨h1, h2⟩ := h
      rw [← h2, List.filter_append, createAll_trace_filter,
        createVideoEvent_trace_filter env mgr _ r videoTrace heq]
      simp
  · simp only [Except.ok.injEq, Prod.mk.injEq] at h
    obtain ⟨h1, h2⟩ := h
    rw [← h2, List.filter_append, createAll_trace_filter, sendAttendeeMail_trace_filter]
    simp

theorem update_trace_filter (env : Env) (mgr : EventManager) (event : CalendarEvent)
    (rescheduleUid : String) (booking : PartialBooking) (res : CreateUpdateResult)
    (trace : List TraceItem)
    (hb : env.findBooking rescheduleUid = some booking)
    (h : EventManager.update env mgr event rescheduleUid = .ok (res, trace)) :
    trace.filter isCalendarAdapterCall
      = (mgr.calendarCredentials.map (expectedCalUpdateCalls booking)).flatten := by
  simp only [EventManager.update] at h
  by_cases hru : rescheduleUid = ""
  · rw [if_pos hru] at h
    exact absurd h (by simp)
  · rw [if_neg hru, hb] at h
    simp only [] at h
    split at h
    · split at h
      · exact absurd h (by simp)
      · rename_i p r videoTrace heq
        simp only [Except.ok.injEq, Prod.mk.injEq] at h
        obtain ⟨h1, h2⟩ := h
        rw [← h2, List.filter_append, updateAll_trace_filter,
          updateVideoEvent_trace_filter env mgr _ booking r videoTrace heq]
        simp
    · simp only [Except.ok.injEq, Prod.mk.injEq] at h
      obtain ⟨h1, h2⟩ := h
      rw [← h2, List.filter_append, updateAll_trace_filter, sendAttendeeMail_trace_filter]
      simp

/-- Claim C4 (corrected, amended form): `create` dispatches at most one
calendar adapter — exactly the first calendar credential's when one exists,
none otherwise; `update`, in contrast, runs one `updateEvent` per calendar
credential and invokes the adapter for every credential whose first matching
prior reference has a truthy uid — with several calendar credentials the
update path invokes several adapters. -/
theorem claim_C4_amended :
    (∀ (env : Env) (mgr : EventManager) (event : CalendarEvent)
        (res : CreateUpdateResult) (trace : List TraceItem),
        EventManager.create env mgr event = .ok (res, trace) →
        trace.filter isCalendarAdapterCall
          = ((mgr.calendarCredentials.head?).map (fun c => TraceItem.calCreate c.id)).toList)
    ∧ (∀ (env : Env) (mgr : EventManager) (event : CalendarEvent) (rescheduleUid : String)
        (booking : PartialBooking) (res : CreateUpdateResult) (trace : List TraceItem),
        env.findBooking rescheduleUid = some booking →
        EventManager.update env mgr event rescheduleUid = .ok (res, trace) →
        trace.filter isCalendarAdapterCall
          = (mgr.calendarCredentials.map (expectedCalUpdateCalls booking)).flatten) :=
  ⟨create_trace_filter,
   fun env mgr event rescheduleUid booking res trace hb h =>
     update_trace_filter env mgr event rescheduleUid booking res trace hb h⟩

/-- Counterexample for C4 as stated: an update over two configured calendar
credentials (each with a matching prior reference) invokes TWO calendar
adapters, not exactly one. -/
theorem claim_C4_counterexample :
    (EventManager.update envTwoRefs mgrTwoCals sampleEvent "resched-1").toOption.map
        (fun p => (p.snd.filter isCalendarAdapterCall).length)
      = some 2 := rfl

/-- Witness for C4 (amended) at a concrete successful create. -/
theorem claim_C4_witness :
    (EventManager.create sampleEnv mgrTwoCals sampleEvent = .ok (createOkResult, createOkTrace))
    ∧ createOkTrace.filter isCalendarAdapterCall
        = ((mgrTwoCals.calendarCredentials.head?).map
            (fun c => TraceItem.calCreate c.id)).toList :=
  ⟨rfl, claim_C4_amended.1 sampleEnv mgrTwoCals sampleEvent createOkResult createOkTrace rfl⟩
